import Mathlib

/-!
Verification of the store-adapter core (src/src/StoreAdapter.tsx).

Shallow embedding conventions:
* `Notifier` mirrors the `Notifier<T>` class. Listener callbacks are
  modelled as identifiers of a type `L` with decidable equality; the
  JavaScript `Set` of listeners is a duplicate-free list kept in insertion
  order (`Set.add` inserts at the end only when absent, `Set.delete`
  removes the element, `forEach` iterates in insertion order).
* `notify` returns, next to the successor state, the list of
  (listener, value) invocations it performs, in order.
* Store descriptors (`StoreAdapter`) keep `id` and `shouldUpdate` from the
  source. The effectful capabilities are modelled as follows: `read()` is
  an environment `String -> T` giving the external value of each store id
  at the moment of the call, and `subscribe` is modelled by the
  `FlushEvent.upstreamSubscribe` events the registration flush emits plus
  a flag `hasTeardown` saying whether the call returns a teardown
  function.
* The registry memory (the `Map<string, StoreAdapterMemory>`) is an
  association list from ids to entries.
-/

/-- State of a `Notifier<T>`: the `alive` flag, the listener set in
insertion order, and the stored value. -/
structure Notifier (L T : Type) where
  alive : Bool
  listeners : List L
  value : T
  deriving Repr, DecidableEq

/-- `new Notifier(value)`: alive, no listeners, seeded with `value`. -/
def Notifier.init {L T : Type} (value : T) : Notifier L T :=
  { alive := true, listeners := [], value := value }

/-- `Notifier.subscribe(listener)`: if alive, add the listener to the set
(no-op when already present, appended at the end otherwise). -/
def Notifier.subscribe {L T : Type} [DecidableEq L]
    (n : Notifier L T) (listener : L) : Notifier L T :=
  if n.alive then
    { n with
        listeners :=
          if listener ∈ n.listeners then n.listeners
          else n.listeners ++ [listener] }
  else n

/-- The closure returned by `Notifier.subscribe`: if alive, delete the
listener from the set. -/
def Notifier.unsubscribe {L T : Type} [DecidableEq L]
    (n : Notifier L T) (listener : L) : Notifier L T :=
  if n.alive then
    { n with listeners := n.listeners.filter (fun l => !decide (l = listener)) }
  else n

/-- `Notifier.notify(value)`: if alive, store the value, then invoke every
current listener with it in insertion order. The second component lists
the performed invocations. -/
def Notifier.notify {L T : Type} (n : Notifier L T) (value : T) :
    Notifier L T × List (L × T) :=
  if n.alive then
    ({ n with value := value }, n.listeners.map (fun l => (l, value)))
  else (n, [])

/-- `Notifier.destroy()`: if alive, clear the listeners and mark dead. -/
def Notifier.destroy {L T : Type} (n : Notifier L T) : Notifier L T :=
  if n.alive then { n with listeners := [], alive := false } else n

/-- `Notifier.read()`: return the stored value, in any state. -/
def Notifier.read {L T : Type} (n : Notifier L T) : T :=
  n.value

/-- `Notifier.hasListeners()`: `listeners.size > 0`. -/
def Notifier.hasListeners {L T : Type} (n : Notifier L T) : Bool :=
  n.listeners.length > 0

/-- One externally observable operation on a Notifier. -/
inductive NOp (L T : Type)
  | sub (l : L)
  | unsub (l : L)
  | notify (v : T)
  | destroy

/-- Run one operation (state part only). -/
def Notifier.applyOp {L T : Type} [DecidableEq L]
    (n : Notifier L T) : NOp L T → Notifier L T
  | NOp.sub l => n.subscribe l
  | NOp.unsub l => n.unsubscribe l
  | NOp.notify v => (n.notify v).1
  | NOp.destroy => n.destroy

/-- Run a sequence of operations from left to right. -/
def Notifier.applyOps {L T : Type} [DecidableEq L]
    (n : Notifier L T) (ops : List (NOp L T)) : Notifier L T :=
  ops.foldl Notifier.applyOp n

/-- The value a Notifier should hold after a sequence of operations:
each `notify` before the first `destroy` overwrites it, `destroy`
freezes it, everything else leaves it alone. -/
def NOp.specValue {L T : Type} (cur : T) : List (NOp L T) → T
  | [] => cur
  | NOp.notify v :: rest => NOp.specValue v rest
  | NOp.destroy :: _ => cur
  | NOp.sub _ :: rest => NOp.specValue cur rest
  | NOp.unsub _ :: rest => NOp.specValue cur rest

/-- Model of the JavaScript number space relevant to `Object.is` edge
cases: NaN is a single value, positive and negative zero are distinct
values, other numbers are tagged by their (nonzero) magnitude. In this
representation the SameValue algorithm used by `Object.is` coincides
with structural equality. -/
inductive JSNum
  | nan
  | posZero
  | negZero
  | posInf
  | negInf
  | num (magnitude : Int)
  deriving Repr, DecidableEq

/-- The SameValue algorithm of `Object.is`, case by case: NaN equals
NaN, the two zeros are distinguished, every other comparison is by
value. -/
def jsObjectIs : JSNum → JSNum → Bool
  | JSNum.nan, JSNum.nan => true
  | JSNum.posZero, JSNum.posZero => true
  | JSNum.negZero, JSNum.negZero => true
  | JSNum.posInf, JSNum.posInf => true
  | JSNum.negInf, JSNum.negInf => true
  | JSNum.num a, JSNum.num b => a == b
  | _, _ => false

/-- `Object.is` on an arbitrary value model: identity, i.e. decidable
equality of the model type. -/
def objectIs {T : Type} [DecidableEq T] (a b : T) : Bool :=
  decide (a = b)

/-- `defaultUpdate(prev, next) = !Object.is(prev, next)`
(src/src/StoreAdapter.tsx line 123). -/
def defaultUpdate {T : Type} [DecidableEq T] (prev next : T) : Bool :=
  !(objectIs prev next)

/-- The options record accepted by `createStoreAdapter`: optional id,
optional shouldUpdate. The `read`/`subscribe` capabilities are modelled
outside the record (see the file header); `hasTeardown` records whether
the `subscribe` capability returns a teardown function. -/
structure StoreAdapterOptions (T : Type) where
  id : Option String := none
  shouldUpdate : Option (T → T → Bool) := none
  hasTeardown : Bool := true

/-- A store descriptor as returned by `createStoreAdapter`. -/
structure StoreAdapter (T : Type) where
  id : String
  shouldUpdate : T → T → Bool
  hasTeardown : Bool

/-- `createStoreAdapter(options)`: spread defaults, overridden by the
supplied options. The global id counter is passed explicitly as `idx`. -/
def createStoreAdapter {T : Type} [DecidableEq T]
    (idx : Nat) (o : StoreAdapterOptions T) : StoreAdapter T :=
  { id := o.id.getD ("Store-" ++ toString idx)
    shouldUpdate := o.shouldUpdate.getD defaultUpdate
    hasTeardown := o.hasTeardown }

/-- A registry entry (`StoreAdapterMemory<T>`): the proxy Notifier and
whether the optional upstream teardown handle has been stored. -/
structure StoreAdapterMemory (L T : Type) where
  notifier : Notifier L T
  unsubscribe : Bool
  deriving Repr, DecidableEq

/-- Lookup in the registry map, keyed by store id. -/
def lookupId {A : Type} : List (String × A) → String → Option A
  | [], _ => none
  | (k, v) :: rest, i => if k = i then some v else lookupId rest i

/-- Overwrite the entry stored under a key (identity when absent). -/
def setEntry {A : Type} (m : List (String × A)) (i : String) (v : A) :
    List (String × A) :=
  m.map (fun p => if p.1 = i then (p.1, v) else p)

/-- Events recorded while running the hook body in render phase. -/
inductive HookEvent
  | storeRead
  deriving Repr, DecidableEq

/-- `getInstance(store)` (src/src/StoreAdapter.tsx lines 276-292): look
up the entry for the id; when absent, construct a Notifier seeded with
`store.read()` — the current external value, passed as `current` — and,
when the root is still mounted, write the fresh entry to memory. The
third component records whether `store.read()` was called. -/
def getInstance {L T : Type} (memory : List (String × StoreAdapterMemory L T))
    (mounted : Bool) (id : String) (current : T) :
    StoreAdapterMemory L T × List (String × StoreAdapterMemory L T) × List HookEvent :=
  match lookupId memory id with
  | some inst => (inst, memory, [])
  | none =>
      let inst : StoreAdapterMemory L T :=
        { notifier := Notifier.init current, unsubscribe := false }
      (inst, if mounted then memory ++ [(id, inst)] else memory,
        [HookEvent.storeRead])

/-- The context method `read: (store) => getInstance(store).notifier.read()`. -/
def ctxRead {L T : Type} (memory : List (String × StoreAdapterMemory L T))
    (mounted : Bool) (store : StoreAdapter T) (current : T) : T :=
  ((getInstance (L := L) memory mounted store.id current).1).notifier.read

/-- The context method `register` (src/src/StoreAdapter.tsx lines
294-298): when the root is mounted, push the store onto the
pending-registration queue. -/
def register {T : Type} (mounted : Bool) (pending : List (StoreAdapter T))
    (store : StoreAdapter T) : List (StoreAdapter T) :=
  if mounted then pending ++ [store] else pending

/-- Events emitted by the pending-registration flush. -/
inductive FlushEvent (T : Type)
  | upstreamSubscribe (id : String)
  | deferNotify (id : String) (value : T)
  deriving Repr, DecidableEq

/-- The pending-registration flush effect (src/src/StoreAdapter.tsx lines
205-245). For every store of the batch, in order: if its id has an entry,
call `store.subscribe(checkForUpdates)` (event `upstreamSubscribe`), run
`checkForUpdates` once immediately — when the root is mounted, read the
current external value and, when `shouldUpdate` fires against the stored
Notifier value, hand a notify thunk to `batchUpdates` (event
`deferNotify`) — and, when `store.subscribe` returned a teardown, store
it on the entry, overwriting any previous handle. -/
def flushRegistrations {L T : Type} (env : String → T) (mounted : Bool) :
    List (StoreAdapter T) → List (String × StoreAdapterMemory L T) →
    List (String × StoreAdapterMemory L T) × List (FlushEvent T)
  | [], memory => (memory, [])
  | store :: rest, memory =>
    match lookupId memory store.id with
    | none => flushRegistrations env mounted rest memory
    | some inst =>
        let immediate : List (FlushEvent T) :=
          if mounted then
            let nextValue := env store.id
            if store.shouldUpdate inst.notifier.read nextValue then
              [FlushEvent.deferNotify store.id nextValue]
            else []
          else []
        let memory1 :=
          if store.hasTeardown then
            setEntry memory store.id { inst with unsubscribe := true }
          else memory
        let r := flushRegistrations env mounted rest memory1
        (r.1, FlushEvent.upstreamSubscribe store.id :: (immediate ++ r.2))

/-- Number of `store.subscribe` calls recorded for a given id. -/
def countUpstreamSubs {T : Type} (events : List (FlushEvent T)) (id : String) : Nat :=
  (events.filter (fun e =>
    match e with
    | FlushEvent.upstreamSubscribe i => decide (i = id)
    | FlushEvent.deferNotify _ _ => false)).length

/-- The body of the `setTimeout` scheduled by `batchUpdates`
(src/src/StoreAdapter.tsx lines 189-202): when the liveness flag is still
set, push the callback onto the pending-update queue; otherwise drop it. -/
def deferredPush {U : Type} (mounted : Bool) (pending : List U) (callback : U) :
    List U :=
  if mounted then pending ++ [callback] else pending

/-- The pending-update flush effect (src/src/StoreAdapter.tsx lines
249-260): when the queue is nonempty, clear it, then run each thunk in
enqueue order, each guarded by the liveness flag. Returns the new queue
and the list of executed thunks in execution order. -/
def flushUpdates {U : Type} (mounted : Bool) (pending : List U) :
    List U × List U :=
  if pending.isEmpty then (pending, [])
  else ([], pending.filter (fun _ => mounted))

/-- The state aliased by one `subscribe` closure of the context
(src/src/StoreAdapter.tsx lines 301-320): the captured registry entry
(`instance`), whether the memory map still holds the id, and how many
times the upstream teardown `instance.unsubscribe()` has been invoked. -/
structure RegState (L T : Type) where
  notifier : Notifier L T
  unsubscribe : Bool
  inMemory : Bool
  upstreamUnsubCalls : Nat
  deriving Repr, DecidableEq

/-- The context method `subscribe(store, callback)` up to returning the
closure: subscribe the callback to the Notifier of the entry. -/
def ctxSubscribe {L T : Type} [DecidableEq L]
    (st : RegState L T) (callback : L) : RegState L T :=
  { st with notifier := st.notifier.subscribe callback }

/-- The closure returned by the context method `subscribe`: remove the
listener, and when no listeners remain, invoke the upstream teardown if
set, destroy the Notifier and delete the registry entry. The second
component reports whether the eviction branch ran. -/
def ctxUnsubClosure {L T : Type} [DecidableEq L]
    (st : RegState L T) (callback : L) : RegState L T × Bool :=
  let n := st.notifier.unsubscribe callback
  if n.hasListeners then ({ st with notifier := n }, false)
  else
    ({ notifier := n.destroy
       unsubscribe := st.unsubscribe
       inMemory := false
       upstreamUnsubCalls :=
         st.upstreamUnsubCalls + (if st.unsubscribe then 1 else 0) }, true)

/-- The per-root context state reachable through the React context. -/
structure RootContext (L T : Type) where
  memory : List (String × StoreAdapterMemory L T)
  mounted : Bool

/-- `useStoreAdapterContextRef` (src/src/StoreAdapter.tsx lines 154-162):
the `useContext` result is `none` when no provider (no root) encloses the
caller, in which case the configuration error is thrown. -/
def useStoreAdapterContextRef {C : Type} (ctxValue : Option (Option C)) :
    Except String (Option C) :=
  match ctxValue with
  | some ref => Except.ok ref
  | none => Except.error "Attempt to access missing StoreAdapterContext reference."

/-- `useStoreAdapterContext` (src/src/StoreAdapter.tsx lines 164-172):
resolve the ref, then fail when its `current` field is still unset. -/
def useStoreAdapterContext {C : Type} (ctxValue : Option (Option C)) :
    Except String C :=
  match useStoreAdapterContextRef ctxValue with
  | Except.error e => Except.error e
  | Except.ok ref =>
    match ref with
    | some ctx => Except.ok ctx
    | none => Except.error "Attempt to access missing StoreAdapterContext."

/-- The render-phase part of `useStoreAdapter` (src/src/StoreAdapter.tsx
lines 343-377): resolve the context first — any thrown error propagates
before the store is touched — then read the current registry value
through `getInstance`. The second component is the trace of store
accesses (`store.read` calls); subscriptions only happen in later effect
phases, never during a render that threw. -/
def useStoreAdapterRender {L T : Type}
    (ctxValue : Option (Option (RootContext L T)))
    (store : StoreAdapter T) (current : T) : Except String T × List HookEvent :=
  match useStoreAdapterContext ctxValue with
  | Except.error e => (Except.error e, [])
  | Except.ok root =>
      let r := getInstance root.memory root.mounted store.id current
      (Except.ok (r.1.notifier.read), r.2.2)

theorem Notifier.subscribe_alive {L T : Type} [DecidableEq L]
    (n : Notifier L T) (l : L) : (n.subscribe l).alive = n.alive := by
  unfold Notifier.subscribe; split <;> rfl

theorem Notifier.subscribe_value {L T : Type} [DecidableEq L]
    (n : Notifier L T) (l : L) : (n.subscribe l).value = n.value := by
  unfold Notifier.subscribe; split <;> rfl

theorem Notifier.unsubscribe_alive {L T : Type} [DecidableEq L]
    (n : Notifier L T) (l : L) : (n.unsubscribe l).alive = n.alive := by
  unfold Notifier.unsubscribe; split <;> rfl

theorem Notifier.unsubscribe_value {L T : Type} [DecidableEq L]
    (n : Notifier L T) (l : L) : (n.unsubscribe l).value = n.value := by
  unfold Notifier.unsubscribe; split <;> rfl

theorem Notifier.destroy_value {L T : Type} (n : Notifier L T) :
    n.destroy.value = n.value := by
  unfold Notifier.destroy; split <;> rfl

theorem Notifier.destroy_alive {L T : Type} (n : Notifier L T) :
    n.destroy.alive = false := by
  unfold Notifier.destroy; split
  · rfl
  · rename_i h; simpa using h

theorem Notifier.destroy_dead {L T : Type}
    (m : Notifier L T) (h : m.alive = false) : m.destroy = m := by
  unfold Notifier.destroy; simp [h]

theorem Notifier.subscribe_dead {L T : Type} [DecidableEq L]
    (m : Notifier L T) (h : m.alive = false) (l : L) : m.subscribe l = m := by
  unfold Notifier.subscribe; simp [h]

theorem Notifier.unsubscribe_dead {L T : Type} [DecidableEq L]
    (m : Notifier L T) (h : m.alive = false) (l : L) : m.unsubscribe l = m := by
  unfold Notifier.unsubscribe; simp [h]

theorem Notifier.notify_dead {L T : Type}
    (m : Notifier L T) (h : m.alive = false) (v : T) : m.notify v = (m, []) := by
  unfold Notifier.notify; simp [h]

theorem Notifier.applyOp_dead {L T : Type} [DecidableEq L]
    (n : Notifier L T) (h : n.alive = false) (op : NOp L T) : n.applyOp op = n := by
  cases op with
  | sub l => exact Notifier.subscribe_dead n h l
  | unsub l => exact Notifier.unsubscribe_dead n h l
  | notify v =>
      show (n.notify v).1 = n
      rw [Notifier.notify_dead n h v]
  | destroy => exact Notifier.destroy_dead n h

theorem Notifier.applyOps_dead {L T : Type} [DecidableEq L]
    (ops : List (NOp L T)) (n : Notifier L T) (h : n.alive = false) :
    n.applyOps ops = n := by
  induction ops generalizing n with
  | nil => rfl
  | cons op rest ih =>
      show Notifier.applyOps (n.applyOp op) rest = n
      rw [Notifier.applyOp_dead n h op]
      exact ih n h

theorem Notifier.applyOps_value_alive {L T : Type} [DecidableEq L]
    (ops : List (NOp L T)) (n : Notifier L T) (h : n.alive = true) :
    (n.applyOps ops).value = NOp.specValue n.value ops := by
  induction ops generalizing n with
  | nil => rfl
  | cons op rest ih =>
    cases op with
    | sub l =>
        have h1 : (n.applyOp (NOp.sub l)).alive = true := by
          show (n.subscribe l).alive = true
          rw [Notifier.subscribe_alive]; exact h
        have h2 : (n.applyOp (NOp.sub l)).value = n.value :=
          Notifier.subscribe_value n l
        show (Notifier.applyOps (n.applyOp (NOp.sub l)) rest).value
            = NOp.specValue n.value rest
        rw [ih _ h1, h2]
    | unsub l =>
        have h1 : (n.applyOp (NOp.unsub l)).alive = true := by
          show (n.unsubscribe l).alive = true
          rw [Notifier.unsubscribe_alive]; exact h
        have h2 : (n.applyOp (NOp.unsub l)).value = n.value :=
          Notifier.unsubscribe_value n l
        show (Notifier.applyOps (n.applyOp (NOp.unsub l)) rest).value
            = NOp.specValue n.value rest
        rw [ih _ h1, h2]
    | notify v =>
        have hstep : n.notify v = ({ n with value := v }, n.listeners.map (fun l => (l, v))) := by
          unfold Notifier.notify; simp [h]
        have h1 : (n.applyOp (NOp.notify v)).alive = true := by
          show (n.notify v).1.alive = true
          rw [hstep]; exact h
        have h2 : (n.applyOp (NOp.notify v)).value = v := by
          show (n.notify v).1.value = v
          rw [hstep]
        show (Notifier.applyOps (n.applyOp (NOp.notify v)) rest).value
            = NOp.specValue v rest
        rw [ih _ h1, h2]
    | destroy =>
        show (Notifier.applyOps n.destroy rest).value = n.value
        rw [Notifier.applyOps_dead rest n.destroy (Notifier.destroy_alive n),
          Notifier.destroy_value]

/-- Claim C3: for every store, running the consumption hook with no
enclosing root (the context value is absent, or the context reference is
still unset) fails synchronously with the configuration error, and the
trace of store accesses is empty: no store value is read and no
subscription is made before the error propagates. -/
theorem claim_C3 {L T : Type} (store : StoreAdapter T) (current : T) :
    useStoreAdapterRender (L := L) none store current =
      (Except.error "Attempt to access missing StoreAdapterContext reference.", [])
    ∧ useStoreAdapterRender (L := L) (some none) store current =
      (Except.error "Attempt to access missing StoreAdapterContext.", []) :=
  ⟨rfl, rfl⟩

/-- Claim C4: over every operation sequence, the stored value of a
Notifier changes only through `notify` and only while alive — the value
after any sequence is the last value of a `notify` that ran before the
first `destroy`, the seed if no such `notify` ran — `read` is legal in
every state and returns that value, `subscribe`, `unsubscribe` and
`destroy` never change the value, and `notify` after `destroy` leaves
the whole state unchanged. -/
theorem claim_C4 {L T : Type} [DecidableEq L] (seed v : T) (l : L)
    (ops : List (NOp L T)) (n : Notifier L T) :
    ((Notifier.init seed : Notifier L T).applyOps ops).read = NOp.specValue seed ops
    ∧ (n.subscribe l).read = n.read
    ∧ (n.unsubscribe l).read = n.read
    ∧ n.destroy.read = n.read
    ∧ (n.destroy.notify v).1 = n.destroy
    ∧ (n.destroy.notify v).1.read = n.read := by
  have hmain := Notifier.applyOps_value_alive ops (Notifier.init seed : Notifier L T) rfl
  have hnd : n.destroy.notify v = (n.destroy, []) :=
    Notifier.notify_dead n.destroy (Notifier.destroy_alive n) v
  refine ⟨hmain, Notifier.subscribe_value n l, Notifier.unsubscribe_value n l,
    Notifier.destroy_value n, ?_, ?_⟩
  · rw [hnd]
  · show (n.destroy.notify v).1.value = n.value
    rw [hnd]; exact Notifier.destroy_value n

/-- Claim C5: one flush of the pending-update queue executes the queued
thunks in FIFO enqueue order; the flush empties the queue whether or not
the liveness flag is set; when the flag is cleared no thunk executes, and
the macrotask-deferred callback of `batchUpdates` enqueues nothing — so
every pending update after root unmount is silently dropped. The last
conjunct composes the two stages: a thunk enqueued by the deferred
callback executes after all earlier ones. -/
theorem claim_C5 {U : Type} (mounted : Bool) (pending : List U) (callback : U) :
    (flushUpdates mounted pending).1 = []
    ∧ (flushUpdates mounted pending).2 = (if mounted then pending else [])
    ∧ deferredPush mounted pending callback =
        (if mounted then pending ++ [callback] else pending)
    ∧ (flushUpdates true (deferredPush true pending callback)).2 = pending ++ [callback] := by
  refine ⟨?_, ?_, rfl, ?_⟩
  · unfold flushUpdates; cases pending <;> simp
  · unfold flushUpdates; cases mounted <;> cases pending <;> simp
  · unfold flushUpdates deferredPush; simp

/-- Claim C9: calling the unsubscribe closure twice is a no-op equal to
the first call, `destroy` is idempotent, and any operation on a
destroyed Notifier (subscribe, unsubscribe, notify) is a safe no-op that
leaves the state unchanged and invokes nothing; all operations are total,
so no error is ever raised. -/
theorem claim_C9 {L T : Type} [DecidableEq L] (n : Notifier L T) (l : L) (v : T) :
    (n.unsubscribe l).unsubscribe l = n.unsubscribe l
    ∧ n.destroy.destroy = n.destroy
    ∧ n.destroy.subscribe l = n.destroy
    ∧ n.destroy.unsubscribe l = n.destroy
    ∧ (n.destroy.notify v).1 = n.destroy
    ∧ (n.destroy.notify v).2 = [] := by
  have hd := Notifier.destroy_alive n
  have hnd := Notifier.notify_dead n.destroy hd v
  refine ⟨?_, Notifier.destroy_dead n.destroy hd, Notifier.subscribe_dead n.destroy hd l,
    Notifier.unsubscribe_dead n.destroy hd l, ?_, ?_⟩
  · by_cases h : n.alive = true
    · have hstep : n.unsubscribe l
          = { n with listeners := n.listeners.filter (fun x => !decide (x = l)) } := by
        unfold Notifier.unsubscribe; simp [h]
      rw [hstep]
      unfold Notifier.unsubscribe
      simp [h, List.filter_filter]
    · have hfalse : n.alive = false := by simpa using h
      rw [Notifier.unsubscribe_dead n hfalse l, Notifier.unsubscribe_dead n hfalse l]
  · rw [hnd]
  · rw [hnd]

/-- Claim C6: when a store id has no registry entry yet, the first
registry read constructs a Notifier seeded with the value `store.read()`
returns at that moment, so the first value a consumer observes equals
the current external value — if the store changed from `v0` to `v1`
before the root rendered, the first observed value is `v1`, not `v0`.
The last conjunct records that `store.read()` is called during this
creation. -/
theorem claim_C6 {L T : Type} (memory : List (String × StoreAdapterMemory L T))
    (mounted : Bool) (store : StoreAdapter T) (v0 v1 : T)
    (h1 : lookupId memory store.id = none) (h2 : v0 ≠ v1) :
    ctxRead (L := L) memory mounted store v1 = v1
    ∧ ctxRead (L := L) memory mounted store v1 ≠ v0
    ∧ (getInstance (L := L) memory mounted store.id v1).1.notifier
        = (Notifier.init v1 : Notifier L T)
    ∧ (getInstance (L := L) memory mounted store.id v1).2.2 = [HookEvent.storeRead] := by
  have hg : getInstance (L := L) memory mounted store.id v1
      = ({ notifier := Notifier.init v1, unsubscribe := false },
          if mounted then memory ++ [(store.id, { notifier := Notifier.init v1, unsubscribe := false })] else memory,
          [HookEvent.storeRead]) := by
    unfold getInstance
    rw [h1]
  refine ⟨?_, ?_, ?_, ?_⟩
  · unfold ctxRead; rw [hg]; rfl
  · unfold ctxRead; rw [hg]; exact fun heq => h2 heq.symm
  · rw [hg]
  · rw [hg]

/-- Witness for claim C6 at a concrete input: empty registry, a store
with id a, external value changed from 0 to 1 before the first read. -/
theorem claim_C6_witness :
    lookupId ([] : List (String × StoreAdapterMemory Nat Nat)) "a" = none
    ∧ (0 : Nat) ≠ 1
    ∧ ctxRead (L := Nat) ([] : List (String × StoreAdapterMemory Nat Nat)) true
        { id := "a", shouldUpdate := fun _ _ => true, hasTeardown := true } 1 = 1 :=
  ⟨rfl, by decide,
    (claim_C6 ([] : List (String × StoreAdapterMemory Nat Nat)) true
      { id := "a", shouldUpdate := fun _ _ => true, hasTeardown := true }
      0 1 rfl (by decide)).1⟩

theorem jsObjectIs_eq_true_iff (a b : JSNum) : jsObjectIs a b = true ↔ a = b := by
  cases a <;> cases b <;> simp [jsObjectIs]

theorem jsObjectIs_eq_objectIs (a b : JSNum) : jsObjectIs a b = objectIs a b := by
  rcases hj : jsObjectIs a b with _ | _
  · rcases ho : objectIs a b with _ | _
    · rfl
    · have hab : a = b := by simpa [objectIs] using ho
      have : jsObjectIs a b = true := (jsObjectIs_eq_true_iff a b).mpr hab
      rw [hj] at this; exact absurd this (by simp)
  · have hab : a = b := (jsObjectIs_eq_true_iff a b).mp hj
    simp [objectIs, hab]

/-- Claim C7: a store descriptor built by `createStoreAdapter` with
`shouldUpdate` omitted gets `defaultUpdate`, which is the negation of
the `Object.is` identity check: it returns true exactly when the two
values are not the same value, including the edge cases — NaN compared
with NaN does not update, positive zero compared with negative zero
does. -/
theorem claim_C7 (o : StoreAdapterOptions JSNum) (idx : Nat)
    (h : o.shouldUpdate = none) :
    (∀ prev next, (createStoreAdapter idx o).shouldUpdate prev next
        = !(jsObjectIs prev next))
    ∧ (∀ prev next, ((createStoreAdapter idx o).shouldUpdate prev next = true
        ↔ prev ≠ next))
    ∧ (createStoreAdapter idx o).shouldUpdate JSNum.nan JSNum.nan = false
    ∧ (createStoreAdapter idx o).shouldUpdate JSNum.posZero JSNum.negZero = true := by
  have hs : (createStoreAdapter idx o).shouldUpdate = defaultUpdate := by
    unfold createStoreAdapter; rw [h]; rfl
  refine ⟨?_, ?_, ?_, ?_⟩
  · intro prev next
    rw [hs]
    unfold defaultUpdate
    rw [jsObjectIs_eq_objectIs]
  · intro prev next
    rw [hs]
    unfold defaultUpdate objectIs
    simp
  · rw [hs]; rfl
  · rw [hs]; rfl

/-- Witness for claim C7 at a concrete input: options with
`shouldUpdate` omitted; NaN against NaN does not trigger an update. -/
theorem claim_C7_witness :
    ({ id := none, shouldUpdate := none, hasTeardown := true }
        : StoreAdapterOptions JSNum).shouldUpdate = none
    ∧ (createStoreAdapter 0 ({ id := none, shouldUpdate := none, hasTeardown := true }
        : StoreAdapterOptions JSNum)).shouldUpdate JSNum.nan JSNum.nan = false :=
  ⟨rfl,
    (claim_C7 ({ id := none, shouldUpdate := none, hasTeardown := true }
      : StoreAdapterOptions JSNum) 0 rfl).2.2.1⟩

theorem Notifier.foldl_subscribe {L T : Type} [DecidableEq L]
    (ls : List L) (n : Notifier L T) (ha : n.alive = true)
    (hd : (n.listeners ++ ls).Nodup) :
    (ls.foldl Notifier.subscribe n).alive = true
    ∧ (ls.foldl Notifier.subscribe n).listeners = n.listeners ++ ls
    ∧ (ls.foldl Notifier.subscribe n).value = n.value := by
  induction ls generalizing n with
  | nil => exact ⟨ha, by simp, rfl⟩
  | cons l rest ih =>
      have hmem : l ∉ n.listeners := by
        intro hmem
        rcases List.nodup_append.mp hd with ⟨_, _, hdisj⟩
        exact hdisj hmem (List.mem_cons_self l rest)
      have hstep : n.subscribe l = { n with listeners := n.listeners ++ [l] } := by
        unfold Notifier.subscribe
        simp [ha, hmem]
      have heq : (n.listeners ++ [l]) ++ rest = n.listeners ++ l :: rest := by
        rw [List.append_assoc, List.singleton_append]
      have hd2 : (({ n with listeners := n.listeners ++ [l] } : Notifier L T).listeners
          ++ rest).Nodup := by
        show ((n.listeners ++ [l]) ++ rest).Nodup
        rw [heq]; exact hd
      have := ih ({ n with listeners := n.listeners ++ [l] }) ha hd2
      show (List.foldl Notifier.subscribe (n.subscribe l) rest).alive = true
        ∧ (List.foldl Notifier.subscribe (n.subscribe l) rest).listeners
            = n.listeners ++ l :: rest
        ∧ (List.foldl Notifier.subscribe (n.subscribe l) rest).value = n.value
      rw [hstep]
      refine ⟨this.1, ?_, this.2.2⟩
      rw [this.2.1]
      exact heq

/-- Claim C8: on a live Notifier built by subscribing pairwise-distinct
listeners in order, `notify(v)` sets the stored value to v and invokes
exactly those listeners with v, synchronously, in insertion order; after
`destroy`, `notify` invokes no listeners and changes nothing. -/
theorem claim_C8 {L T : Type} [DecidableEq L] (seed v : T) (ls : List L)
    (h : ls.Nodup) :
    ((ls.foldl Notifier.subscribe (Notifier.init seed : Notifier L T)).notify v).1.read = v
    ∧ ((ls.foldl Notifier.subscribe (Notifier.init seed : Notifier L T)).notify v).2
        = ls.map (fun l => (l, v))
    ∧ (((ls.foldl Notifier.subscribe (Notifier.init seed : Notifier L T)).destroy).notify v).2 = []
    ∧ (((ls.foldl Notifier.subscribe (Notifier.init seed : Notifier L T)).destroy).notify v).1
        = (ls.foldl Notifier.subscribe (Notifier.init seed : Notifier L T)).destroy := by
  obtain ⟨ha, hl, _⟩ := Notifier.foldl_subscribe ls (Notifier.init seed : Notifier L T)
    rfl (by simpa [Notifier.init] using h)
  set m := ls.foldl Notifier.subscribe (Notifier.init seed : Notifier L T) with hm
  have hstep : m.notify v = ({ m with value := v }, m.listeners.map (fun l => (l, v))) := by
    unfold Notifier.notify; simp [ha]
  have hnd := Notifier.notify_dead m.destroy (Notifier.destroy_alive m) v
  refine ⟨?_, ?_, ?_, ?_⟩
  · rw [hstep]; rfl
  · rw [hstep]
    show m.listeners.map (fun l => (l, v)) = ls.map (fun l => (l, v))
    rw [hl]; rfl
  · rw [hnd]
  · rw [hnd]

/-- Witness for claim C8 at a concrete input: listeners 0 and 1 are
notified in insertion order with the new value. -/
theorem claim_C8_witness :
    ([0, 1] : List Nat).Nodup
    ∧ ((([0, 1] : List Nat).foldl Notifier.subscribe
        (Notifier.init (5 : Nat) : Notifier Nat Nat)).notify 9).2 = [(0, 9), (1, 9)] :=
  ⟨by decide, by
    have happ := (claim_C8 (L := Nat) 5 9 [0, 1] (by decide)).2.1
    simpa using happ⟩

/-- Claim C10: subscribing the same listener callback twice through the
context leaves a single registration (the listener set holds it once), a
notification invokes it exactly once, and one unsubscribe removes it
entirely; consequently the second unsubscribe of the duplicate-callback
consumer finds `hasListeners()` false and runs the full eviction branch,
leaving the registry entry removed. -/
theorem Notifier.subscribe_mem {L T : Type} [DecidableEq L]
    (m : Notifier L T) (x : L) (hx : x ∈ m.listeners) :
    (m.subscribe x).listeners = m.listeners := by
  unfold Notifier.subscribe; split <;> simp [hx]

theorem Notifier.subscribe_notMem {L T : Type} [DecidableEq L]
    (m : Notifier L T) (x : L) (ha : m.alive = true) (hx : x ∉ m.listeners) :
    (m.subscribe x).listeners = m.listeners ++ [x] := by
  unfold Notifier.subscribe; simp [ha, hx]

theorem ctxUnsubClosure_evicts {L T : Type} [DecidableEq L]
    (st : RegState L T) (l : L)
    (h : (st.notifier.unsubscribe l).listeners = []) :
    (ctxUnsubClosure st l).2 = true
    ∧ (ctxUnsubClosure st l).1.inMemory = false
    ∧ (ctxUnsubClosure st l).1.notifier = (st.notifier.unsubscribe l).destroy
    ∧ (ctxUnsubClosure st l).1.upstreamUnsubCalls
        = st.upstreamUnsubCalls + (if st.unsubscribe then 1 else 0) := by
  unfold ctxUnsubClosure Notifier.hasListeners
  simp [h]

theorem claim_C10 {L T : Type} [DecidableEq L] (st : RegState L T) (l : L) (v : T)
    (h1 : st.notifier.alive = true) (h2 : st.notifier.listeners = []) :
    (ctxSubscribe (ctxSubscribe st l) l).notifier.listeners = [l]
    ∧ ((ctxSubscribe (ctxSubscribe st l) l).notifier.notify v).2 = [(l, v)]
    ∧ (ctxUnsubClosure (ctxSubscribe (ctxSubscribe st l) l) l).1.notifier.listeners = []
    ∧ (ctxUnsubClosure (ctxSubscribe (ctxSubscribe st l) l) l).1.notifier.hasListeners = false
    ∧ (ctxUnsubClosure (ctxSubscribe (ctxSubscribe st l) l) l).2 = true
    ∧ (ctxUnsubClosure (ctxSubscribe (ctxSubscribe st l) l) l).1.inMemory = false
    ∧ (ctxUnsubClosure (ctxUnsubClosure (ctxSubscribe (ctxSubscribe st l) l) l).1 l).2 = true
    ∧ (ctxUnsubClosure (ctxUnsubClosure (ctxSubscribe (ctxSubscribe st l) l) l).1 l).1.inMemory
        = false := by
  have ha1 : (st.notifier.subscribe l).alive = true := by
    rw [Notifier.subscribe_alive]; exact h1
  have hl1 : (st.notifier.subscribe l).listeners = [l] := by
    rw [Notifier.subscribe_notMem st.notifier l h1 (by rw [h2]; simp), h2]
    rfl
  have ha2 : ((st.notifier.subscribe l).subscribe l).alive = true := by
    rw [Notifier.subscribe_alive]; exact ha1
  have hl2 : ((st.notifier.subscribe l).subscribe l).listeners = [l] := by
    rw [Notifier.subscribe_mem _ l (by rw [hl1]; simp)]
    exact hl1
  have hrm : (((st.notifier.subscribe l).subscribe l).unsubscribe l).listeners = [] := by
    unfold Notifier.unsubscribe
    simp [ha2, hl2]
  obtain ⟨hev1, hev2, hev3, _⟩ :=
    ctxUnsubClosure_evicts (ctxSubscribe (ctxSubscribe st l) l) l hrm
  have hua : (((st.notifier.subscribe l).subscribe l).unsubscribe l).alive = true := by
    rw [Notifier.unsubscribe_alive]; exact ha2
  have hdl : ((((st.notifier.subscribe l).subscribe l).unsubscribe l).destroy).listeners
      = [] := by
    unfold Notifier.destroy
    simp [hua]
  have h3 : ((ctxUnsubClosure (ctxSubscribe (ctxSubscribe st l) l) l).1.notifier.unsubscribe
      l).listeners = [] := by
    rw [hev3, Notifier.unsubscribe_dead _ (Notifier.destroy_alive _) l]
    exact hdl
  obtain ⟨hf1, hf2, _, _⟩ :=
    ctxUnsubClosure_evicts (ctxUnsubClosure (ctxSubscribe (ctxSubscribe st l) l) l).1 l h3
  refine ⟨hl2, ?_, ?_, ?_, hev1, hev2, hf1, hf2⟩
  · show (((st.notifier.subscribe l).subscribe l).notify v).2 = [(l, v)]
    unfold Notifier.notify
    simp [ha2, hl2]
  · rw [hev3]; exact hdl
  · rw [hev3]
    show ((((st.notifier.subscribe l).subscribe l).unsubscribe l).destroy).hasListeners = false
    unfold Notifier.hasListeners
    simp [hdl]

/-- Witness for claim C10 at a concrete input. -/
theorem claim_C10_witness :
    ({ notifier := Notifier.init 0, unsubscribe := true, inMemory := true, upstreamUnsubCalls := 0 } : RegState Nat Nat).notifier.alive = true
    ∧ ({ notifier := Notifier.init 0, unsubscribe := true, inMemory := true, upstreamUnsubCalls := 0 } : RegState Nat Nat).notifier.listeners = []
    ∧ (ctxUnsubClosure (ctxSubscribe (ctxSubscribe ({ notifier := Notifier.init 0, unsubscribe := true, inMemory := true, upstreamUnsubCalls := 0 } : RegState Nat Nat) 7) 7) 7).2 = true :=
  ⟨rfl, rfl,
    (claim_C10 ({ notifier := Notifier.init 0, unsubscribe := true, inMemory := true, upstreamUnsubCalls := 0 } : RegState Nat Nat) 7 3 rfl rfl).2.2.2.2.1⟩

/-- Claim C1 fails on src/src/StoreAdapter.tsx: the registration flush
has no idempotency guard before calling `store.subscribe`. With the same
store enqueued twice on the pending-registration queue before the flush
(two consumers registering in one commit), the flush over a memory that
holds the id calls `store.subscribe` once per enqueued entry — twice,
not once. The second teardown handle overwrites the first, so the first
upstream subscription can never be removed. The repository variant
embedded in src/README.md adds the guard (`registered` set and a
pending Set), which is the behavior the claim describes. -/
theorem claim_C1_theorem :
    countUpstreamSubs
      ((flushRegistrations (L := Nat) (fun _ => (0 : Nat)) true
        (register true (register true [] ({ id := "a", shouldUpdate := defaultUpdate, hasTeardown := true } : StoreAdapter Nat)) ({ id := "a", shouldUpdate := defaultUpdate, hasTeardown := true } : StoreAdapter Nat))
        [("a", { notifier := Notifier.init 0, unsubscribe := false })]).2) "a" = 2
    ∧ (2 : Nat) ≠ 1 := by
  constructor
  · rfl
  · decide

/-- Claim C2 fails on src/src/StoreAdapter.tsx: the eviction branch of
the context `subscribe` closure consults no `keepAlive` (the option does
not exist in this file), so when the last consumer unsubscribes it always
runs: the upstream teardown is invoked, the Notifier is destroyed, and
the registry entry is removed — evaluated here for a single consumer of
a live entry holding value 5 with a stored upstream teardown. The
`keepAlive` retention the claim describes exists in the repository
variant embedded in src/README.md. -/
theorem claim_C2_theorem :
    (ctxUnsubClosure (ctxSubscribe ({ notifier := Notifier.init 5, unsubscribe := true, inMemory := true, upstreamUnsubCalls := 0 } : RegState Nat Nat) 0) 0).2 = true
    ∧ (ctxUnsubClosure (ctxSubscribe ({ notifier := Notifier.init 5, unsubscribe := true, inMemory := true, upstreamUnsubCalls := 0 } : RegState Nat Nat) 0) 0).1.notifier.alive = false
    ∧ (ctxUnsubClosure (ctxSubscribe ({ notifier := Notifier.init 5, unsubscribe := true, inMemory := true, upstreamUnsubCalls := 0 } : RegState Nat Nat) 0) 0).1.inMemory = false
    ∧ (ctxUnsubClosure (ctxSubscribe ({ notifier := Notifier.init 5, unsubscribe := true, inMemory := true, upstreamUnsubCalls := 0 } : RegState Nat Nat) 0) 0).1.upstreamUnsubCalls = 1 := by
  refine ⟨rfl, rfl, rfl, rfl⟩
